import Mathlib

/-!
# Voxetta: the recording / quality-control / upload workflow

A shallow embedding of `ui/src/components/RecordButton.js` and
`ui/src/components/RecordingSection.js`.

* A component is a record of its properties; a method is a function from the
  component (and the outcomes of the collaborators it calls) to the new
  component, the list of effects it performed, in order, and how it completed.
* The collaborators (`AudioRecorder`, `QualityControl`, `UtteranceApiService`,
  `dispatchErrorToast`) are not part of the sources: their outcomes are inputs
  of the model and every call to them is recorded as an effect.
* `recordHandler` is an async method.  Its `await`s are the only points where
  other code can run; the one property of the button that is driven from the
  outside, `collectionState`, may have any value when the method resumes, and
  that value is an input of the model as well.
-/

namespace Voxetta

/-! ## Values -/

/-- Modelled from the spec: the enumeration of `utils/CollectionStatesEnum`,
which is imported by both components but is not among the sources; the seven
members are the ones the spec lists, pairwise distinct. -/
inductive CollectionStates
  | NOT_RECORDING
  | RECORDING
  | QC_ERROR
  | UPLOAD_ERROR
  | BEFORE_UPLOAD
  | TRANSITIONING
  | TOAST
  deriving DecidableEq, Repr

/-- The JavaScript values that reach a truthiness test in the two components. -/
inductive JsVal
  | undefined
  | null
  | bool (b : Bool)
  | num (n : Int)
  | str (s : String)
  | obj (id : Nat)
  deriving DecidableEq, Repr

/-- JavaScript truthiness, as used by `if (x)` and `!x`. -/
def JsVal.truthy : JsVal → Bool
  | .undefined => false
  | .null => false
  | .bool b => b
  | .num n => n != 0
  | .str s => s != ""
  | .obj _ => true

/-- A thrown JavaScript error: the two fields the handler reads. -/
structure JsError where
  name : String
  message : String
  deriving DecidableEq, Repr

/-- The error raised by reading property `prop` of `undefined`. -/
def typeErrorOfUndefined (prop : String) : JsError :=
  { name := "TypeError"
    message := "Cannot read properties of undefined (reading \x27" ++ prop ++ "\x27)" }

/-- The value `stopRecording` resolves to: `{blob, recordingUrl?}`.  The blob,
the stream and the audio context are handles, represented by numbers. -/
structure Audio where
  blob : Nat
  recordingUrl : JsVal
  deriving DecidableEq, Repr

/-- The value `isQualitySound` returns: `{success, reason?}`. -/
structure Verdict where
  success : Bool
  reason : Option String
  deriving DecidableEq, Repr

/-! ## RecordButton -/

/-- What a method does to the outside, in program order: a call of a
collaborator (with its arguments), or an event it dispatches. -/
inductive Effect
  | initRecorder
  | startRecording
  | stopRecording
  | newAudioContext
  | isQualitySound (context : Option Nat) (blob : Nat)
  | saveAudio (audio : Audio)
  | errorToast (message : String)
  | updateCollectionState (state : CollectionStates)
  deriving DecidableEq, Repr

/-- How an invocation ends: it returns, or an exception leaves it (for an
async method: its promise is rejected). -/
inductive Completion
  | returned
  | threw (e : JsError)
  deriving DecidableEq, Repr

/-- The reactive properties of `RecordButton`; `none` is `undefined`. -/
structure RecordButton where
  collectionState : Option CollectionStates
  audioStream : Option Nat
  context : Option Nat
  deriving DecidableEq, Repr

/-- The outcomes of the collaborators during one invocation of the handler. -/
structure Collaborators where
  initRecorder : Except JsError Unit
  startRecording : Bool
  stream : Option Nat
  newAudioContext : Nat
  stopRecording : Except JsError Audio
  isQualitySound : Option Nat → Nat → Verdict
  saveAudio : Audio → Except JsError JsVal

/-- The value of the `collectionState` property of the button when the handler
resumes after each of its three `await`s. -/
structure Resumptions where
  afterInit : Option CollectionStates
  afterStop : Option CollectionStates
  afterSave : Option CollectionStates
  deriving DecidableEq, Repr

/-- The result of one invocation. -/
structure Outcome where
  self : RecordButton
  effects : List Effect
  completion : Completion
  deriving DecidableEq, Repr

/-- `RecordButton.getIsRecordingState`. -/
def RecordButton.getIsRecordingState (self : RecordButton) : Bool :=
  self.collectionState == some CollectionStates.RECORDING

/-- `RecordButton.dispatchCollectionState`: one `update-collection-state`
event whose detail is `{state: newState}`. -/
def RecordButton.dispatchCollectionState (newState : CollectionStates) : List Effect :=
  [Effect.updateCollectionState newState]

/-- `RecordButton.handleFinish`. -/
def RecordButton.handleFinish : List Effect :=
  RecordButton.dispatchCollectionState CollectionStates.TRANSITIONING

/-- The text of the toast shown when `initRecorder` fails (a template literal
that spans three source lines). -/
def microphoneBlockedMessage : String :=
  "Microphone access is currently blocked for this site. \n" ++
  "                    To unblock, please navigate to chrome://settings/content/microphone \n" ++
  "                    and remove this site from the \x27Block\x27 section."

/-- The text of the toast shown when `stopRecording` fails with `e`. -/
def couldNotRecordMessage (e : JsError) : String :=
  "Could not record successfully; " ++ e.name ++ ": " ++ e.message

/-- `RecordButton.recordHandler`. -/
def RecordButton.recordHandler (self : RecordButton) (c : Collaborators) (r : Resumptions) :
    Outcome :=
  if !self.getIsRecordingState then
    -- attempt to init; check for browser permission
    let self1 := { self with collectionState := r.afterInit }
    match c.initRecorder with
    | Except.error _ =>
      ⟨self1, [Effect.initRecorder, Effect.errorToast microphoneBlockedMessage],
        Completion.returned⟩
    | Except.ok _ =>
      -- start recording
      if !c.startRecording then
        ⟨self1, [Effect.initRecorder, Effect.startRecording,
            Effect.errorToast "Failed to start recording."], Completion.returned⟩
      else
        -- set to recording state
        ⟨{ self1 with audioStream := c.stream, context := some c.newAudioContext },
          [Effect.initRecorder, Effect.startRecording]
            ++ RecordButton.dispatchCollectionState CollectionStates.RECORDING
            ++ [Effect.newAudioContext],
          Completion.returned⟩
  else
    -- set to before recording state
    let eff0 := RecordButton.dispatchCollectionState CollectionStates.NOT_RECORDING
      ++ [Effect.stopRecording]
    let self1 := { self with collectionState := r.afterStop }
    -- `let audio;` then the `try`: the `catch` shows the toast and falls through
    let captured : Option Audio × List Effect :=
      match c.stopRecording with
      | Except.ok audio => (some audio, eff0)
      | Except.error e => (none, eff0 ++ [Effect.errorToast (couldNotRecordMessage e)])
    match captured with
    | (none, eff1) =>
      -- `audio.blob` is evaluated before `QualityControl` is constructed
      ⟨self1, eff1, Completion.threw (typeErrorOfUndefined "blob")⟩
    | (some audio, eff1) =>
      -- do auto qc checks
      let qualityResult := c.isQualitySound self1.context audio.blob
      let eff2 := eff1 ++ [Effect.isQualitySound self1.context audio.blob]
      if !qualityResult.success then
        ⟨self1, eff2 ++ RecordButton.dispatchCollectionState CollectionStates.QC_ERROR,
          Completion.returned⟩
      else if audio.recordingUrl.truthy then
        -- attempt to upload it
        let self2 := { self1 with collectionState := r.afterSave }
        let eff3 := eff2 ++ [Effect.saveAudio audio]
        let uploaded : Bool :=
          match c.saveAudio audio with
          | Except.ok resp => resp.truthy
          | Except.error _ => false
        if uploaded then
          ⟨self2, eff3 ++ RecordButton.handleFinish, Completion.returned⟩
        else
          -- the `catch`, also reached by `throw new Error()` on a falsy response
          ⟨self2, eff3 ++ RecordButton.dispatchCollectionState CollectionStates.UPLOAD_ERROR
              ++ RecordButton.handleFinish, Completion.returned⟩
      else
        ⟨self1, eff2 ++ RecordButton.handleFinish, Completion.returned⟩

/-! ### Observations on a list of effects -/

/-- The states carried by the `update-collection-state` events, in order. -/
def events : List Effect → List CollectionStates
  | [] => []
  | Effect.updateCollectionState s :: rest => s :: events rest
  | _ :: rest => events rest

/-- The messages of the error toasts, in order. -/
def toasts : List Effect → List String
  | [] => []
  | Effect.errorToast m :: rest => m :: toasts rest
  | _ :: rest => toasts rest

/-- The number of invocations of `saveAudio`. -/
def saveAudioCalls : List Effect → Nat
  | [] => 0
  | Effect.saveAudio _ :: rest => saveAudioCalls rest + 1
  | _ :: rest => saveAudioCalls rest

/-- The number of invocations of `isQualitySound`. -/
def qualityCheckCalls : List Effect → Nat
  | [] => 0
  | Effect.isQualitySound _ _ :: rest => qualityCheckCalls rest + 1
  | _ :: rest => qualityCheckCalls rest

/-- The number of invocations of `stopRecording`. -/
def stopRecordingCalls : List Effect → Nat
  | [] => 0
  | Effect.stopRecording :: rest => stopRecordingCalls rest + 1
  | _ :: rest => stopRecordingCalls rest

/-- The number of invocations of `startRecording`. -/
def startRecordingCalls : List Effect → Nat
  | [] => 0
  | Effect.startRecording :: rest => startRecordingCalls rest + 1
  | _ :: rest => startRecordingCalls rest

/-- The effects performed after the (first) call of `stopRecording`, that is,
from the resumption of the handler after its second `await` on. -/
def effectsAfterStop : List Effect → List Effect
  | [] => []
  | Effect.stopRecording :: rest => rest
  | _ :: rest => effectsAfterStop rest

/-- The effects performed after the (first) call of `saveAudio`, that is, from
the resumption of the handler after its third `await` on. -/
def effectsAfterSave : List Effect → List Effect
  | [] => []
  | Effect.saveAudio _ :: rest => rest
  | _ :: rest => effectsAfterSave rest

/-! ## RecordingSection -/

/-- The properties and fields of `RecordingSection`; `none` is `undefined`. -/
structure RecordingSection where
  collectionState : Option CollectionStates
  audioStream : Option Nat
  context : Option Nat
  qcError : String
  disableButtons : Option Bool
  audioUrl : Option String
  deriving DecidableEq, Repr

/-- What `renderFeedbackWindow` returns: one of five templates, with the
values bound in it. -/
inductive Feedback
  | soundWave (isRecording : Bool) (audioStream : Option Nat) (context : Option Nat)
  | playbackButton (audioUrl : Option String)
  | paragraph (text : String)
  | circularProgress
  | empty
  deriving DecidableEq, Repr

/-- What `render` returns: the bindings of the template.  `reRecordButton` is
`none` when the template has no re-record button and `some d` when it has one
whose `disabled` attribute is `d`. -/
structure Rendered where
  buttonsDisabledClass : Bool
  feedback : Feedback
  reRecordButton : Option Bool
  recordButtonState : Option CollectionStates
  recordButtonDisabled : Bool
  skipButtonDisabled : Bool
  deriving DecidableEq, Repr

/-- The constructor of `RecordingSection`: it assigns `audioUrl` and `qcError`
only. -/
def RecordingSection.constructor : RecordingSection :=
  { collectionState := none
    audioStream := none
    context := none
    qcError := ""
    disableButtons := none
    audioUrl := none }

/-- `RecordingSection.updated`. -/
def RecordingSection.updated (self : RecordingSection) : RecordingSection :=
  if self.collectionState = some CollectionStates.TRANSITIONING ∨
      self.collectionState = some CollectionStates.UPLOAD_ERROR ∨
      self.collectionState = some CollectionStates.TOAST then
    { self with disableButtons := some true }
  else
    { self with disableButtons := some false }

/-- `RecordingSection.dispatchCollectionState`. -/
def RecordingSection.dispatchCollectionState (newState : CollectionStates) : List Effect :=
  [Effect.updateCollectionState newState]

/-- `RecordingSection.handleReRecord`: the component afterwards and the
effects. -/
def RecordingSection.handleReRecord (self : RecordingSection) :
    RecordingSection × List Effect :=
  (self, RecordingSection.dispatchCollectionState CollectionStates.NOT_RECORDING)

/-- `RecordingSection.handleAudioUrl`, applied to an event whose `detail.url`
is `url`. -/
def RecordingSection.handleAudioUrl (self : RecordingSection) (url : Option String) :
    RecordingSection :=
  { self with audioUrl := url }

/-- `RecordingSection.toastDisplayed`. -/
def RecordingSection.toastDisplayed (self : RecordingSection) : Bool :=
  self.collectionState == some CollectionStates.TOAST

/-- `RecordingSection.renderFeedbackWindow`. -/
def RecordingSection.renderFeedbackWindow (self : RecordingSection) : Feedback :=
  match self.collectionState with
  | some CollectionStates.RECORDING =>
    Feedback.soundWave (self.collectionState == some CollectionStates.RECORDING)
      self.audioStream self.context
  | some CollectionStates.BEFORE_UPLOAD => Feedback.playbackButton self.audioUrl
  | some CollectionStates.QC_ERROR => Feedback.paragraph self.qcError
  | some CollectionStates.TRANSITIONING => Feedback.circularProgress
  | _ => Feedback.empty

/-- A boolean attribute binding `?disabled=${v}`: the attribute is set exactly
when `v` is truthy. -/
def booleanAttribute (v : Option Bool) : Bool :=
  v == some true

/-- `RecordingSection.render`. -/
def RecordingSection.render (self : RecordingSection) : Rendered :=
  { buttonsDisabledClass := self.toastDisplayed
    feedback := self.renderFeedbackWindow
    reRecordButton :=
      if self.collectionState = some CollectionStates.BEFORE_UPLOAD then
        some (booleanAttribute self.disableButtons)
      else none
    recordButtonState := self.collectionState
    recordButtonDisabled := booleanAttribute self.disableButtons
    skipButtonDisabled := booleanAttribute self.disableButtons }

/-! ## Concrete inputs -/

/-- A button in the `RECORDING` state with a stream and a context. -/
def recordingButton : RecordButton :=
  { collectionState := some CollectionStates.RECORDING
    audioStream := some 1
    context := some 2 }

/-- A button in the `NOT_RECORDING` state. -/
def idleButton : RecordButton :=
  { collectionState := some CollectionStates.NOT_RECORDING
    audioStream := none
    context := none }

/-- A capture with a playable locator. -/
def sampleAudio : Audio :=
  { blob := 7, recordingUrl := JsVal.str "blob:7" }

/-- Collaborators for which every step succeeds. -/
def happyCollaborators : Collaborators :=
  { initRecorder := Except.ok ()
    startRecording := true
    stream := some 5
    newAudioContext := 6
    stopRecording := Except.ok sampleAudio
    isQualitySound := fun _ _ => { success := true, reason := none }
    saveAudio := fun _ => Except.ok (JsVal.obj 1) }

/-- No other recording interferes: at every resumption the property is
`NOT_RECORDING`, the idle state in which capture is begun and the state the
handler announces before it stops a capture. -/
def quietResumptions : Resumptions :=
  { afterInit := some CollectionStates.NOT_RECORDING
    afterStop := some CollectionStates.NOT_RECORDING
    afterSave := some CollectionStates.NOT_RECORDING }

/-- The upload resolves to a falsy response. -/
def falsyUploadCollaborators : Collaborators :=
  { happyCollaborators with saveAudio := fun _ => Except.ok JsVal.undefined }

/-- The upload is rejected. -/
def throwingUploadCollaborators : Collaborators :=
  { happyCollaborators with
    saveAudio := fun _ => Except.error { name := "TypeError", message := "Failed to fetch" } }

/-- The quality check fails with the reason `clipping`. -/
def clippingCollaborators : Collaborators :=
  { happyCollaborators with
    isQualitySound := fun _ _ => { success := false, reason := some "clipping" } }

/-- The error of a device that was disconnected while recording. -/
def deviceLostError : JsError :=
  { name := "NotReadableError", message := "device lost" }

/-- The capture cannot be read: `stopRecording` is rejected. -/
def stopFailsCollaborators : Collaborators :=
  { happyCollaborators with stopRecording := Except.error deviceLostError }

/-- A second recording was begun while the upload of the first was in flight:
the property is `RECORDING` again when the handler resumes after `saveAudio`. -/
def supersededDuringUpload : Resumptions :=
  { afterInit := some CollectionStates.NOT_RECORDING
    afterStop := some CollectionStates.NOT_RECORDING
    afterSave := some CollectionStates.RECORDING }

/-- A second recording was begun and failed its quality check while the upload
of the first was in flight. -/
def supersededAndFailedDuringUpload : Resumptions :=
  { afterInit := some CollectionStates.NOT_RECORDING
    afterStop := some CollectionStates.NOT_RECORDING
    afterSave := some CollectionStates.QC_ERROR }

/-- The browser denies access to the microphone: `initRecorder` is rejected. -/
def deniedCollaborators : Collaborators :=
  { happyCollaborators with
    initRecorder := Except.error { name := "NotAllowedError", message := "Permission denied" } }

/-- The section as constructed, once the parent has bound `state` to its
`collectionState` property. -/
def sectionIn (state : CollectionStates) : RecordingSection :=
  { RecordingSection.constructor with collectionState := some state }

/-- A section in `UPLOAD_ERROR` that holds the locator of the capture. -/
def sectionWithAudio : RecordingSection :=
  (sectionIn CollectionStates.UPLOAD_ERROR).handleAudioUrl (some "blob:7")

/-! ## Theorems -/

open CollectionStates

/-! ### The handler while recording -/

/-- C1, as stated, fails: with `collectionState = RECORDING`, a capture that
has a `recordingUrl`, a passing quality check and a truthy upload response, the
last `update-collection-state` event is not `BEFORE_UPLOAD`, and the handler
does dispatch `TRANSITIONING` on its own. -/
theorem recordHandler_upload_success_not_before_upload :
    recordingButton.collectionState = some RECORDING
    ∧ happyCollaborators.stopRecording = Except.ok sampleAudio
    ∧ sampleAudio.recordingUrl.truthy = true
    ∧ (happyCollaborators.isQualitySound recordingButton.context sampleAudio.blob).success = true
    ∧ happyCollaborators.saveAudio sampleAudio = Except.ok (JsVal.obj 1)
    ∧ (JsVal.obj 1).truthy = true
    ∧ (events (recordingButton.recordHandler happyCollaborators quietResumptions).effects).getLast?
        ≠ some BEFORE_UPLOAD
    ∧ TRANSITIONING ∈
        events (recordingButton.recordHandler happyCollaborators quietResumptions).effects :=
  ⟨rfl, rfl, by decide, rfl, rfl, rfl, by decide, by decide⟩

/-- C1 (amended): with `collectionState = RECORDING`, a capture that has a
(truthy) `recordingUrl`, a passing quality check and a truthy upload response,
the handler dispatches `NOT_RECORDING` and then, through `handleFinish`,
`TRANSITIONING`, which is the last event; it never dispatches `BEFORE_UPLOAD`,
it calls `saveAudio` once and it returns. -/
theorem recordHandler_upload_success (self : RecordButton) (c : Collaborators)
    (r : Resumptions) (audio : Audio) (resp : JsVal)
    (hstate : self.collectionState = some RECORDING)
    (hstop : c.stopRecording = Except.ok audio)
    (hurl : audio.recordingUrl.truthy = true)
    (hqc : (c.isQualitySound self.context audio.blob).success = true)
    (hsave : c.saveAudio audio = Except.ok resp)
    (hresp : resp.truthy = true) :
    events (self.recordHandler c r).effects = [NOT_RECORDING, TRANSITIONING]
    ∧ (events (self.recordHandler c r).effects).getLast? = some TRANSITIONING
    ∧ BEFORE_UPLOAD ∉ events (self.recordHandler c r).effects
    ∧ saveAudioCalls (self.recordHandler c r).effects = 1
    ∧ (self.recordHandler c r).completion = Completion.returned := by
  simp [RecordButton.recordHandler, RecordButton.getIsRecordingState, hstate, hstop, hurl,
    hqc, hsave, hresp, RecordButton.dispatchCollectionState, RecordButton.handleFinish,
    events, saveAudioCalls]

/-- Witness of C1 (amended) on the all-success input. -/
theorem recordHandler_upload_success_witness :
    events (recordingButton.recordHandler happyCollaborators quietResumptions).effects
      = [NOT_RECORDING, TRANSITIONING]
    ∧ (events (recordingButton.recordHandler happyCollaborators quietResumptions).effects).getLast?
      = some TRANSITIONING
    ∧ BEFORE_UPLOAD ∉
      events (recordingButton.recordHandler happyCollaborators quietResumptions).effects
    ∧ saveAudioCalls (recordingButton.recordHandler happyCollaborators quietResumptions).effects
      = 1
    ∧ (recordingButton.recordHandler happyCollaborators quietResumptions).completion
      = Completion.returned :=
  recordHandler_upload_success recordingButton happyCollaborators quietResumptions sampleAudio
    (JsVal.obj 1) rfl rfl (by decide) rfl rfl rfl

/-- C2, on the code: when the upload resolves to a falsy response, and also
when it is rejected, the handler dispatches `UPLOAD_ERROR` and then still runs
`handleFinish`, so the last `update-collection-state` event carries
`TRANSITIONING`, not `UPLOAD_ERROR`. -/
theorem recordHandler_upload_failure_ends_transitioning :
    events (recordingButton.recordHandler falsyUploadCollaborators quietResumptions).effects
      = [NOT_RECORDING, UPLOAD_ERROR, TRANSITIONING]
    ∧ events (recordingButton.recordHandler throwingUploadCollaborators quietResumptions).effects
      = [NOT_RECORDING, UPLOAD_ERROR, TRANSITIONING]
    ∧ (events (recordingButton.recordHandler falsyUploadCollaborators
        quietResumptions).effects).getLast? = some TRANSITIONING
    ∧ (events (recordingButton.recordHandler throwingUploadCollaborators
        quietResumptions).effects).getLast? = some TRANSITIONING := by
  decide

/-- C3: with `collectionState = RECORDING`, when `stopRecording` succeeds and
the quality check returns `success = false`, `saveAudio` is not invoked
(whatever the capture's `recordingUrl`), the events dispatched are
`NOT_RECORDING` and then `QC_ERROR`, which is the last one, and the handler
returns. -/
theorem recordHandler_quality_failure (self : RecordButton) (c : Collaborators)
    (r : Resumptions) (audio : Audio)
    (hstate : self.collectionState = some RECORDING)
    (hstop : c.stopRecording = Except.ok audio)
    (hqc : (c.isQualitySound self.context audio.blob).success = false) :
    saveAudioCalls (self.recordHandler c r).effects = 0
    ∧ events (self.recordHandler c r).effects = [NOT_RECORDING, QC_ERROR]
    ∧ (events (self.recordHandler c r).effects).getLast? = some QC_ERROR
    ∧ qualityCheckCalls (self.recordHandler c r).effects = 1
    ∧ (self.recordHandler c r).completion = Completion.returned := by
  simp [RecordButton.recordHandler, RecordButton.getIsRecordingState, hstate, hstop,
    hqc, RecordButton.dispatchCollectionState, events, saveAudioCalls, qualityCheckCalls]

/-- Witness of C3 on a capture that has a `recordingUrl` and fails the quality
check with the reason `clipping`. -/
theorem recordHandler_quality_failure_witness :
    saveAudioCalls (recordingButton.recordHandler clippingCollaborators quietResumptions).effects
      = 0
    ∧ events (recordingButton.recordHandler clippingCollaborators quietResumptions).effects
      = [NOT_RECORDING, QC_ERROR]
    ∧ (events (recordingButton.recordHandler clippingCollaborators
        quietResumptions).effects).getLast? = some QC_ERROR
    ∧ qualityCheckCalls
        (recordingButton.recordHandler clippingCollaborators quietResumptions).effects = 1
    ∧ (recordingButton.recordHandler clippingCollaborators quietResumptions).completion
      = Completion.returned :=
  recordHandler_quality_failure recordingButton clippingCollaborators quietResumptions
    sampleAudio rfl rfl rfl

/-- C4, on the code: with `collectionState = RECORDING`, when `stopRecording`
fails with `e` the handler dispatches one toast made of `e.name` and
`e.message` and runs neither the quality check nor the upload, but it does not
return: reading `audio.blob` of the unassigned `audio` raises a `TypeError`
that leaves the handler. -/
theorem recordHandler_stop_failure_raises :
    toasts (recordingButton.recordHandler stopFailsCollaborators quietResumptions).effects
      = ["Could not record successfully; NotReadableError: device lost"]
    ∧ qualityCheckCalls
        (recordingButton.recordHandler stopFailsCollaborators quietResumptions).effects = 0
    ∧ saveAudioCalls
        (recordingButton.recordHandler stopFailsCollaborators quietResumptions).effects = 0
    ∧ (recordingButton.recordHandler stopFailsCollaborators quietResumptions).completion
      = Completion.threw (typeErrorOfUndefined "blob")
    ∧ (recordingButton.recordHandler stopFailsCollaborators quietResumptions).completion
      ≠ Completion.returned := by
  refine ⟨rfl, rfl, rfl, rfl, ?_⟩
  intro h
  cases h

/-- When `stopRecording` fails with `e`, whatever `e` is, one toast with the
text built from `e` is shown and then the `TypeError` leaves the handler. -/
theorem recordHandler_stop_failure (self : RecordButton) (c : Collaborators)
    (r : Resumptions) (e : JsError)
    (hstate : self.collectionState = some RECORDING)
    (hstop : c.stopRecording = Except.error e) :
    toasts (self.recordHandler c r).effects = [couldNotRecordMessage e]
    ∧ (self.recordHandler c r).completion = Completion.threw (typeErrorOfUndefined "blob") := by
  simp [RecordButton.recordHandler, RecordButton.getIsRecordingState, hstate, hstop,
    RecordButton.dispatchCollectionState, toasts]

/-- The handler returns in every case but the one of `recordHandler_stop_failure`. -/
theorem recordHandler_returns (self : RecordButton) (c : Collaborators) (r : Resumptions)
    (h : self.collectionState = some RECORDING → ∃ audio, c.stopRecording = Except.ok audio) :
    (self.recordHandler c r).completion = Completion.returned := by
  by_cases hstate : self.collectionState = some RECORDING
  · obtain ⟨audio, hstop⟩ := h hstate
    simp only [RecordButton.recordHandler, RecordButton.getIsRecordingState, hstate, hstop]
    simp only [beq_self_eq_true, Bool.not_true, Bool.false_eq_true, if_false]
    split_ifs <;> rfl
  · simp only [RecordButton.recordHandler, RecordButton.getIsRecordingState]
    have hb : (self.collectionState == some RECORDING) = false := by
      simpa using hstate
    simp only [hb, Bool.not_false, if_true]
    cases c.initRecorder with
    | error e => rfl
    | ok u =>
      simp only
      split_ifs <;> rfl

/-- C5, as stated, fails: the handler has no staleness guard.  When the
`collectionState` at the resumption after `saveAudio` differs from the one the
upload was launched from (and from the one the handler was invoked in), because
a second recording was begun in between, the handler still dispatches
`update-collection-state` events after that point. -/
theorem recordHandler_stale_upload_result_dispatched :
    supersededDuringUpload.afterSave ≠ supersededDuringUpload.afterStop
    ∧ events (effectsAfterSave
        (recordingButton.recordHandler happyCollaborators supersededDuringUpload).effects)
      = [TRANSITIONING]
    ∧ events (effectsAfterSave
        (recordingButton.recordHandler falsyUploadCollaborators supersededDuringUpload).effects)
      = [UPLOAD_ERROR, TRANSITIONING]
    ∧ supersededAndFailedDuringUpload.afterSave ≠ supersededAndFailedDuringUpload.afterStop
    ∧ supersededAndFailedDuringUpload.afterSave ≠ recordingButton.collectionState
    ∧ events (effectsAfterSave
        (recordingButton.recordHandler happyCollaborators
          supersededAndFailedDuringUpload).effects)
      = [TRANSITIONING] := by
  decide

/-- C5 (amended): the handler applies every pipeline result unconditionally.
The effects it performs (so also the `update-collection-state` events it
dispatches after each suspension point) and the way it completes are the same
whatever the collection state is at each resumption: they depend only on the
state at invocation and on the outcomes of the collaborators. -/
theorem recordHandler_ignores_resumption_state (self : RecordButton) (c : Collaborators)
    (r r' : Resumptions) :
    (self.recordHandler c r).effects = (self.recordHandler c r').effects
    ∧ events (effectsAfterStop (self.recordHandler c r).effects)
      = events (effectsAfterStop (self.recordHandler c r').effects)
    ∧ events (effectsAfterSave (self.recordHandler c r).effects)
      = events (effectsAfterSave (self.recordHandler c r').effects)
    ∧ (self.recordHandler c r).completion = (self.recordHandler c r').completion := by
  have key : (self.recordHandler c r).effects = (self.recordHandler c r').effects
      ∧ (self.recordHandler c r).completion = (self.recordHandler c r').completion := by
    simp only [RecordButton.recordHandler]
    cases self.getIsRecordingState <;> cases c.initRecorder <;> cases c.stopRecording <;>
      simp <;> split_ifs <;> simp
  exact ⟨key.1, by rw [key.1], by rw [key.1], key.2⟩

/-! ### The handler while not recording -/

/-- C6: with a `collectionState` other than `RECORDING`, when `initRecorder`
fails, or succeeds and `startRecording` returns false, the handler dispatches
no `update-collection-state` event, leaves `audioStream` and `context` as they
were, dispatches exactly one error toast and returns; when the failure is the
one of `initRecorder`, `startRecording` is not called and the toast is the
remediation message, which names the microphone settings page. -/
theorem recordHandler_capture_cannot_begin (self : RecordButton) (c : Collaborators)
    (r : Resumptions)
    (hstate : self.collectionState ≠ some RECORDING)
    (hfail : (∃ e, c.initRecorder = Except.error e)
      ∨ (c.initRecorder = Except.ok () ∧ c.startRecording = false)) :
    events (self.recordHandler c r).effects = []
    ∧ (self.recordHandler c r).self.audioStream = self.audioStream
    ∧ (self.recordHandler c r).self.context = self.context
    ∧ (toasts (self.recordHandler c r).effects).length = 1
    ∧ (self.recordHandler c r).completion = Completion.returned
    ∧ ((∃ e, c.initRecorder = Except.error e) →
        startRecordingCalls (self.recordHandler c r).effects = 0
        ∧ toasts (self.recordHandler c r).effects = [microphoneBlockedMessage])
    ∧ (∃ pre post, microphoneBlockedMessage
        = pre ++ "chrome://settings/content/microphone" ++ post) := by
  have hb : (self.collectionState == some RECORDING) = false := by
    simpa using hstate
  have hmsg : ∃ pre post, microphoneBlockedMessage
      = pre ++ "chrome://settings/content/microphone" ++ post :=
    ⟨"Microphone access is currently blocked for this site. \n" ++
      "                    To unblock, please navigate to ",
     " \n                    and remove this site from the \x27Block\x27 section.", rfl⟩
  rcases hfail with ⟨e, he⟩ | ⟨hinit, hstart⟩
  · simp [RecordButton.recordHandler, RecordButton.getIsRecordingState, hb, he, events,
      toasts, startRecordingCalls, hmsg]
  · simp [RecordButton.recordHandler, RecordButton.getIsRecordingState, hb, hinit, hstart,
      events, toasts, hmsg]

/-- Witness of C6 on a refused microphone permission. -/
theorem recordHandler_capture_cannot_begin_witness :
    events (idleButton.recordHandler deniedCollaborators quietResumptions).effects = []
    ∧ (idleButton.recordHandler deniedCollaborators quietResumptions).self.audioStream
      = idleButton.audioStream
    ∧ (idleButton.recordHandler deniedCollaborators quietResumptions).self.context
      = idleButton.context
    ∧ (toasts (idleButton.recordHandler deniedCollaborators quietResumptions).effects).length
      = 1
    ∧ (idleButton.recordHandler deniedCollaborators quietResumptions).completion
      = Completion.returned
    ∧ ((∃ e, deniedCollaborators.initRecorder = Except.error e) →
        startRecordingCalls
          (idleButton.recordHandler deniedCollaborators quietResumptions).effects = 0
        ∧ toasts (idleButton.recordHandler deniedCollaborators quietResumptions).effects
          = [microphoneBlockedMessage])
    ∧ (∃ pre post, microphoneBlockedMessage
        = pre ++ "chrome://settings/content/microphone" ++ post) :=
  recordHandler_capture_cannot_begin idleButton deniedCollaborators quietResumptions
    (by decide) (Or.inl ⟨_, rfl⟩)

/-- C7: with a `collectionState` other than `RECORDING`, when `initRecorder`
succeeds and `startRecording` returns true, the handler dispatches exactly one
`update-collection-state` event, carrying `RECORDING`, and no toast, sets
`audioStream` to the recorder's stream and `context` to a new audio context,
calls none of `stopRecording`, the quality check and `saveAudio`, and
returns. -/
theorem recordHandler_capture_begins (self : RecordButton) (c : Collaborators)
    (r : Resumptions)
    (hstate : self.collectionState ≠ some RECORDING)
    (hinit : c.initRecorder = Except.ok ())
    (hstart : c.startRecording = true) :
    events (self.recordHandler c r).effects = [RECORDING]
    ∧ toasts (self.recordHandler c r).effects = []
    ∧ (self.recordHandler c r).self.audioStream = c.stream
    ∧ (self.recordHandler c r).self.context = some c.newAudioContext
    ∧ stopRecordingCalls (self.recordHandler c r).effects = 0
    ∧ qualityCheckCalls (self.recordHandler c r).effects = 0
    ∧ saveAudioCalls (self.recordHandler c r).effects = 0
    ∧ (self.recordHandler c r).completion = Completion.returned := by
  have hb : (self.collectionState == some RECORDING) = false := by
    simpa using hstate
  simp [RecordButton.recordHandler, RecordButton.getIsRecordingState, hb, hinit, hstart,
    RecordButton.dispatchCollectionState, events, toasts, stopRecordingCalls,
    qualityCheckCalls, saveAudioCalls]

/-- Witness of C7 on an idle button and collaborators that all succeed. -/
theorem recordHandler_capture_begins_witness :
    events (idleButton.recordHandler happyCollaborators quietResumptions).effects = [RECORDING]
    ∧ toasts (idleButton.recordHandler happyCollaborators quietResumptions).effects = []
    ∧ (idleButton.recordHandler happyCollaborators quietResumptions).self.audioStream
      = happyCollaborators.stream
    ∧ (idleButton.recordHandler happyCollaborators quietResumptions).self.context
      = some happyCollaborators.newAudioContext
    ∧ stopRecordingCalls (idleButton.recordHandler happyCollaborators quietResumptions).effects
      = 0
    ∧ qualityCheckCalls (idleButton.recordHandler happyCollaborators quietResumptions).effects
      = 0
    ∧ saveAudioCalls (idleButton.recordHandler happyCollaborators quietResumptions).effects = 0
    ∧ (idleButton.recordHandler happyCollaborators quietResumptions).completion
      = Completion.returned :=
  recordHandler_capture_begins idleButton happyCollaborators quietResumptions
    (by decide) rfl rfl

/-! ### The recording section -/

/-- C8, as stated, fails: after a quality-check failure with the reason
`clipping` the handler has dispatched `NOT_RECORDING` and `QC_ERROR` and
nothing else that the section could read, and the feedback pane of the section
in `QC_ERROR` shows the `qcError` property, the empty string of the
constructor, not the reason. -/
theorem feedback_after_quality_failure_not_reason :
    clippingCollaborators.isQualitySound recordingButton.context sampleAudio.blob
      = { success := false, reason := some "clipping" }
    ∧ (recordingButton.recordHandler clippingCollaborators quietResumptions).effects
      = [Effect.updateCollectionState NOT_RECORDING, Effect.stopRecording,
          Effect.isQualitySound (some 2) 7, Effect.updateCollectionState QC_ERROR]
    ∧ (sectionIn QC_ERROR).renderFeedbackWindow = Feedback.paragraph ""
    ∧ (sectionIn QC_ERROR).renderFeedbackWindow ≠ Feedback.paragraph "clipping" := by
  decide

/-- C8 (amended): after a quality-check failure no toast is dispatched, and
the effects of the handler are the two events `NOT_RECORDING` and `QC_ERROR`
(whose detail is the state alone) around the calls of `stopRecording` and of
the quality check: the reason of the verdict is not retained, the handler
behaves the same whatever the reasons are.  What the feedback pane renders in
`QC_ERROR` is the `qcError` property of the section, which the constructor sets
to the empty string. -/
theorem quality_failure_reason_not_carried (self : RecordButton) (c : Collaborators)
    (r : Resumptions) (audio : Audio) (rs : RecordingSection)
    (reason : Option Nat → Nat → Option String)
    (hstate : self.collectionState = some RECORDING)
    (hstop : c.stopRecording = Except.ok audio)
    (hqc : (c.isQualitySound self.context audio.blob).success = false) :
    toasts (self.recordHandler c r).effects = []
    ∧ (self.recordHandler c r).effects
      = [Effect.updateCollectionState NOT_RECORDING, Effect.stopRecording,
          Effect.isQualitySound self.context audio.blob, Effect.updateCollectionState QC_ERROR]
    ∧ self.recordHandler
        { c with isQualitySound := fun ctx blob =>
            { c.isQualitySound ctx blob with reason := reason ctx blob } } r
      = self.recordHandler c r
    ∧ ({ rs with collectionState := some QC_ERROR }).renderFeedbackWindow
      = Feedback.paragraph rs.qcError
    ∧ RecordingSection.constructor.qcError = "" := by
  simp [RecordButton.recordHandler, RecordButton.getIsRecordingState, hstate, hstop,
    hqc, RecordButton.dispatchCollectionState, toasts, RecordingSection.renderFeedbackWindow,
    RecordingSection.constructor]

/-- Witness of C8 (amended) on the quality check that fails with `clipping`,
with the reason replaced by none. -/
theorem quality_failure_reason_not_carried_witness :
    toasts (recordingButton.recordHandler clippingCollaborators quietResumptions).effects = []
    ∧ (recordingButton.recordHandler clippingCollaborators quietResumptions).effects
      = [Effect.updateCollectionState NOT_RECORDING, Effect.stopRecording,
          Effect.isQualitySound recordingButton.context sampleAudio.blob,
          Effect.updateCollectionState QC_ERROR]
    ∧ recordingButton.recordHandler
        { clippingCollaborators with isQualitySound := fun ctx blob =>
            { clippingCollaborators.isQualitySound ctx blob with
              reason := (fun _ _ => none) ctx blob } } quietResumptions
      = recordingButton.recordHandler clippingCollaborators quietResumptions
    ∧ ({ sectionWithAudio with collectionState := some QC_ERROR }).renderFeedbackWindow
      = Feedback.paragraph sectionWithAudio.qcError
    ∧ RecordingSection.constructor.qcError = "" :=
  quality_failure_reason_not_carried recordingButton clippingCollaborators quietResumptions
    sampleAudio sectionWithAudio (fun _ _ => none) rfl rfl rfl

/-- C9: for every collection state `s` and whatever the section held before,
after `updated()` `disableButtons` is true if `s` is `TRANSITIONING`,
`UPLOAD_ERROR` or `TOAST` and false otherwise; it is the value of the
`disabled` attribute of the record button and of the skip button, and of the
re-record button in the state in which `render` has one (`BEFORE_UPLOAD`). -/
theorem updated_disableButtons (rs : RecordingSection) (s : CollectionStates) :
    (({ rs with collectionState := some s }).updated).disableButtons
      = some (decide (s = TRANSITIONING ∨ s = UPLOAD_ERROR ∨ s = TOAST))
    ∧ (({ rs with collectionState := some s }).updated).collectionState = some s
    ∧ (({ rs with collectionState := some s }).updated).render.recordButtonDisabled
      = decide (s = TRANSITIONING ∨ s = UPLOAD_ERROR ∨ s = TOAST)
    ∧ (({ rs with collectionState := some s }).updated).render.skipButtonDisabled
      = decide (s = TRANSITIONING ∨ s = UPLOAD_ERROR ∨ s = TOAST)
    ∧ (({ rs with collectionState := some s }).updated).render.reRecordButton
      = (if s = BEFORE_UPLOAD then
          some (decide (s = TRANSITIONING ∨ s = UPLOAD_ERROR ∨ s = TOAST))
        else none) := by
  cases s <;> simp [RecordingSection.updated, RecordingSection.render, booleanAttribute]

/-- C10, as stated, fails: in `QC_ERROR` and in `UPLOAD_ERROR` the template has
no re-record button, and `handleReRecord` leaves the retained locator
`audioUrl` in place. -/
theorem reRecord_unavailable_and_locator_kept :
    (sectionIn QC_ERROR).render.reRecordButton = none
    ∧ (sectionIn UPLOAD_ERROR).render.reRecordButton = none
    ∧ sectionWithAudio.collectionState = some UPLOAD_ERROR
    ∧ sectionWithAudio.audioUrl = some "blob:7"
    ∧ sectionWithAudio.handleReRecord.1.audioUrl = some "blob:7"
    ∧ sectionWithAudio.handleReRecord.1.audioUrl ≠ none := by
  decide

/-- C10 (amended): `handleReRecord` dispatches exactly one
`update-collection-state` event, carrying `NOT_RECORDING`, and changes no field
of the section (`audioUrl` keeps its value); the re-record control is rendered
exactly when the collection state is `BEFORE_UPLOAD`, so not in `QC_ERROR` and
not in `UPLOAD_ERROR`. -/
theorem handleReRecord_dispatches_not_recording (rs : RecordingSection) :
    rs.handleReRecord.2 = [Effect.updateCollectionState NOT_RECORDING]
    ∧ events rs.handleReRecord.2 = [NOT_RECORDING]
    ∧ rs.handleReRecord.1 = rs
    ∧ rs.handleReRecord.1.audioUrl = rs.audioUrl
    ∧ (rs.render.reRecordButton.isSome = true ↔ rs.collectionState = some BEFORE_UPLOAD) := by
  refine ⟨rfl, rfl, rfl, rfl, ?_⟩
  by_cases h : rs.collectionState = some BEFORE_UPLOAD <;> simp [RecordingSection.render, h]

end Voxetta
